import Mathlib

/-!
Shallow embedding of the IRSSEE tutoring application (TypeScript sources:
`src/types.ts`, and the concatenated `src/unnamed/part_000` holding
`services/geminiService.ts`, `App.tsx`, `components/ChatInterface.tsx`,
`components/Sidebar.tsx`).

The application is a single-threaded React state machine.  We embed the
state as an explicit structure and each event handler as a pure function
from state (plus the results of the awaited collaborator calls, passed in
as oracle arguments) to state.  Collaborator requests issued by a handler
are returned alongside the new state so that theorems can speak about the
arguments of the Generator/Evaluator calls.  JavaScript numbers are
modelled as `Int`/`Nat` (all arithmetic in scope is small-integer exact);
the one floating-point site, `toFixed(1)` in `finishMockExam`, is modelled
by exact rational arithmetic with the ECMAScript rounding rule
(nearest, ties toward the larger integer).  Message ids
(`Date.now() + Math.random()`) are nondeterministic timestamps irrelevant
to every property considered and are omitted from the transcript model.
-/

namespace IRSSEE

/-- `Lesson` from `src/types.ts`. -/
structure Lesson where
  week : Nat
  day : Nat
  phase : String
  topic : String
  description : String
  references : String
  part : String
  sequence : String
deriving DecidableEq, Repr

/-- The `status` field of `LessonProgress` (`'locked' | 'active' | 'passed'`). -/
inductive LessonStatus
  | locked
  | active
  | passed
deriving DecidableEq, Repr

/-- `LessonProgress` from `src/types.ts` (`Lesson` plus progress fields). -/
structure LessonProgress extends Lesson where
  status : LessonStatus
  score : Int
  twistsCompleted : Nat
deriving DecidableEq, Repr

/-- Message sender (`'user' | 'ai' | 'system'`). -/
inductive Sender
  | user
  | ai
  | system
deriving DecidableEq, Repr

/-- A transcript entry (`ChatMessage` without the timestamp id). -/
structure ChatMessage where
  sender : Sender
  text : String
  refList : List (String × String) := []
deriving DecidableEq, Repr

/-- `AppStatus` from `src/types.ts`. -/
inductive AppStatus
  | IDLE
  | GENERATING
  | AWAITING_ANSWER
  | EVALUATING
  | TOPIC_PASSED
  | COMPLETED
  | GENERATING_MOCK_EXAM
  | MOCK_EXAM_IN_PROGRESS
  | MOCK_EXAM_COMPLETED
deriving DecidableEq, Repr

/-- The six rubric sub-scores of `EvaluationResult.scores`. -/
structure RubricScores where
  rules : Int
  calculations : Int
  compliance : Int
  alternatives : Int
  planning : Int
  clarity : Int
deriving DecidableEq, Repr

/-- `EvaluationResult.feedback`. -/
structure FeedbackLists where
  good : List String
  corrections : List String
  takeaways : List String
deriving DecidableEq, Repr

/-- `EvaluationResult` from `src/types.ts` (`detailedExplanation?` is optional). -/
structure EvaluationResult where
  totalScore : Int
  scores : RubricScores
  feedback : FeedbackLists
  knowledgePoints : List String
  detailedExplanation : Option String
deriving DecidableEq, Repr

/-- The four labelled options of a `MockQuestion`. -/
structure MockOptions where
  A : String
  B : String
  C : String
  D : String
deriving DecidableEq, Repr

/-- `MockQuestion` from `src/types.ts`.  `correctAnswer` is kept as a raw
string because the JSON payload is cast, not validated, in
`generateMockExamQuestions`. -/
structure MockQuestion where
  question : String
  options : MockOptions
  correctAnswer : String
  topic : String
deriving DecidableEq, Repr

/-- JavaScript dynamic property access `options[letter]`: `none` models
`undefined`. -/
def MockOptions.get (o : MockOptions) (letter : String) : Option String :=
  if letter = "A" then some o.A
  else if letter = "B" then some o.B
  else if letter = "C" then some o.C
  else if letter = "D" then some o.D
  else none

/-- The `{scenario, question}` pair returned by `generateScenario` and kept
in `scenarioRef`. -/
structure ScenarioData where
  scenario : String
  question : String
deriving DecidableEq, Repr

/-- The mock-exam sub-state held in the `mockExam` React state. -/
structure MockExamState where
  questions : List MockQuestion
  currentQuestionIndex : Nat
  answers : List String
deriving DecidableEq, Repr

/-! ## JavaScript helpers -/

/-- JavaScript `Array.prototype.findIndex`: first index satisfying the
predicate, `-1` when none does. -/
def jsFindIndex {α : Type} (p : α → Bool) : List α → Int
  | [] => -1
  | a :: as => if p a then 0 else
      let r := jsFindIndex p as
      if r = -1 then -1 else r + 1

/-- JavaScript array indexing `xs[i]` with an `Int` index: `none` models
`undefined` (negative or out-of-bounds access). -/
def jsGet {α : Type} (xs : List α) (i : Int) : Option α :=
  if i < 0 then none else xs.get? i.toNat

/-- JavaScript `String.prototype.toUpperCase` on the character list (the
inputs in scope are ASCII). -/
def jsToUpper (s : String) : String :=
  ⟨s.data.map Char.toUpper⟩

/-- JavaScript `String.prototype.trim`: strip leading and trailing
whitespace. -/
def jsTrim (s : String) : String :=
  ⟨((s.data.dropWhile Char.isWhitespace).reverse.dropWhile Char.isWhitespace).reverse⟩

/-! ## Service layer (`services/geminiService.ts`) -/

/-- An abstract JSON value, standing for what `JSON.parse` would return. -/
inductive Json
  | null
  | bool (b : Bool)
  | num (n : Int)
  | str (s : String)
  | arr (elems : List Json)
  | obj (fields : List (String × Json))

/-- Object field lookup, `undefined` as `none`. -/
def Json.getField : Json → String → Option Json
  | .obj fields, key => (fields.find? (fun f => f.1 = key)).map (·.2)
  | _, _ => none

/-- The collaborator's reply as seen by the response-handling code:
`empty` when `response.text` is falsy, `unparseable` when `JSON.parse`
throws, `parsed j` when it yields the JSON value `j`. -/
inductive AiResponse
  | empty
  | unparseable
  | parsed (j : Json)

/-- Response handling of `evaluateAnswer` (geminiService lines 191-198):
an empty reply throws; otherwise the trimmed text is fed to `JSON.parse`
and the parse result is returned, cast to `EvaluationResult` with **no
shape validation** (a `JSON.parse` failure propagates as an uncaught
exception). -/
def evaluateAnswer (r : AiResponse) : Except String Json :=
  match r with
  | .empty => .error "Failed to evaluate answer: The AI returned an empty response."
  | .unparseable => .error "SyntaxError: JSON.parse failed"
  | .parsed j => .ok j

/-- Is this JSON value a string? -/
def Json.isStr : Json → Bool
  | .str _ => true
  | _ => false

/-- Is this JSON value a number? -/
def Json.isNum : Json → Bool
  | .num _ => true
  | _ => false

/-- Is this JSON value an array of strings? -/
def Json.isStrArr : Json → Bool
  | .arr elems => elems.all Json.isStr
  | _ => false

/-- Does the field exist and satisfy the check? -/
def Json.fieldIs (j : Json) (key : String) (check : Json → Bool) : Bool :=
  match j.getField key with
  | some v => check v
  | none => false

/-- Modelled from the spec: the `EvaluationResult` schema of spec section 3
(mirroring the `EvaluationResult` interface of `src/types.ts`): required
numeric `totalScore`, six numeric sub-scores, three string-list feedback
fields, a string-list `knowledgePoints`, and a string
`detailedExplanation`.  This is the shape `evaluateAnswer` is claimed to
validate against; the source performs no such validation, so the predicate
is stated here from the spec's words for comparison. -/
def validEvaluationJson (j : Json) : Bool :=
  j.fieldIs "totalScore" Json.isNum &&
  j.fieldIs "scores" (fun s =>
    s.fieldIs "rules" Json.isNum &&
    s.fieldIs "calculations" Json.isNum &&
    s.fieldIs "compliance" Json.isNum &&
    s.fieldIs "alternatives" Json.isNum &&
    s.fieldIs "planning" Json.isNum &&
    s.fieldIs "clarity" Json.isNum) &&
  j.fieldIs "feedback" (fun f =>
    f.fieldIs "good" Json.isStrArr &&
    f.fieldIs "corrections" Json.isStrArr &&
    f.fieldIs "takeaways" Json.isStrArr) &&
  j.fieldIs "knowledgePoints" Json.isStrArr &&
  j.fieldIs "detailedExplanation" Json.isStr

/-- The question count requested by `generateMockExamQuestions`
(geminiService line 226): `Math.max(5, Math.min(15, Math.floor(n / 2)))`
where `n` is the number of passed lessons. -/
def mockQuestionCount (n : Nat) : Nat :=
  max 5 (min 15 (n / 2))

/-! ## Application state (`App.tsx`)

The React component state of `App`, as one structure.  `scenarioRef` is the
mutable ref holding the current `{scenario, question}` pair.  The
`isSidebarOpen` flag is pure presentation and is omitted. -/

structure AppState where
  lessons : List LessonProgress
  currentLessonIndex : Nat
  messages : List ChatMessage
  appStatus : AppStatus
  inputDisabled : Bool
  mockExam : Option MockExamState
  scenarioRef : Option ScenarioData
deriving DecidableEq, Repr

/-- `addMessage` (App line 325): append a transcript entry.  The timestamp
id is omitted (see the file comment). -/
def addMsg (s : AppState) (sender : Sender) (text : String)
    (refs : List (String × String) := []) : AppState :=
  { s with messages := s.messages ++ [{ sender := sender, text := text, refList := refs }] }

/-- A collaborator request issued by a handler, with the arguments the
source passes (`generateScenario`, `evaluateAnswer`,
`generateMockExamQuestions`). -/
inductive ExtRequest
  | evalReq (scenarioText answerText : String) (passedLessons : List LessonProgress)
  | scenarioReq (lesson : Lesson) (passedLessons : List LessonProgress)
      (previousScenario : Option String) (isTwist : Bool)
  | mockReq (passedLessons : List LessonProgress) (questionCount : Nat)
deriving DecidableEq, Repr

/-! ## Mock exam (`App.tsx` lines 366-434) -/

/-- The question message built by `displayCurrentMockQuestion`. -/
def mockQuestionText (questionData : MockQuestion) (index total : Nat) : String :=
  "**Question " ++ toString (index + 1) ++ " of " ++ toString total ++
    "** (Topic: " ++ questionData.topic ++ ")\n\n" ++
  questionData.question ++ "\n\n" ++
  "A. " ++ questionData.options.A ++ "\n" ++
  "B. " ++ questionData.options.B ++ "\n" ++
  "C. " ++ questionData.options.C ++ "\n" ++
  "D. " ++ questionData.options.D

/-- `displayCurrentMockQuestion` (App lines 366-376). -/
def displayCurrentMockQuestion (s : AppState) (questionData : MockQuestion)
    (index total : Nat) : AppState :=
  { addMsg s .ai (mockQuestionText questionData index total) with inputDisabled := false }

/-- ECMAScript `toFixed(1)` rounding for a nonnegative value: the integer
numerator over 10 nearest to `10 * x`, ties resolved toward the larger
integer.  The JavaScript site computes `(score / total) * 100` in binary
floating point; score and total are small integers, modelled by exact
rational arithmetic. -/
def jsRound1 (x : Rat) : Int :=
  ⌊x * 10 + 1 / 2⌋

/-- The value rounded to one decimal place, as a rational. -/
def jsToFixed1 (x : Rat) : Rat :=
  (jsRound1 x : Rat) / 10

/-- The decimal string `toFixed(1)` produces for a nonnegative value. -/
def jsToFixed1String (x : Rat) : String :=
  let n := jsRound1 x
  toString (n / 10) ++ "." ++ toString (n % 10)

/-- `userAnswer || 'No Answer'`: JavaScript falsy fallback (`undefined` or
the empty string fall back to the sentinel). -/
def answerDisplay (userAnswer : Option String) : String :=
  match userAnswer with
  | some a => if a = "" then "No Answer" else a
  | none => "No Answer"

/-- Rendering of a possibly-`undefined` option text inside a template
literal (`undefined` renders as the string "undefined"). -/
def optionDisplay : Option String → String
  | some t => t
  | none => "undefined"

/-- One entry of the `results` array of `finishMockExam` (App line 390),
for an incorrectly answered question. -/
def resultLine (i : Nat) (q : MockQuestion) (userAnswer : Option String) : String :=
  "**Question " ++ toString (i + 1) ++ " (Topic: " ++ q.topic ++ ")**" ++
  "\n- Your Answer: " ++ answerDisplay userAnswer ++
  "\n- Correct Answer: " ++ q.correctAnswer ++ ": " ++ optionDisplay (q.options.get q.correctAnswer)

/-- The `forEach` accumulation of `finishMockExam` (App lines 384-393):
score so far and the result lines for incorrect questions, in question
order.  `answers.get? i` models `finalExamState.answers[i]` (`none` =
`undefined`, and `undefined === q.correctAnswer` is false). -/
def finishLoop (answers : List String) : Nat → List MockQuestion → Nat × List String
  | _, [] => (0, [])
  | i, q :: qs =>
    let rest := finishLoop answers (i + 1) qs
    if answers.get? i = some q.correctAnswer then (rest.1 + 1, rest.2)
    else (rest.1, resultLine i q (answers.get? i) :: rest.2)

/-- The values `finishMockExam` computes and reports. -/
structure MockExamOutcome where
  score : Nat
  totalQuestions : Nat
  percentage : Rat
  results : List String
deriving DecidableEq, Repr

/-- The computational core of `finishMockExam` (App lines 378-397):
`percentage = totalQuestions > 0 ? ((score / totalQuestions) * 100).toFixed(1) : 0`. -/
def finishMockExam (questions : List MockQuestion) (answers : List String) :
    MockExamOutcome :=
  let p := finishLoop answers 0 questions
  let totalQuestions := questions.length
  { score := p.1
    totalQuestions := totalQuestions
    percentage :=
      if totalQuestions > 0 then
        jsToFixed1 ((p.1 : Rat) / (totalQuestions : Rat) * 100)
      else 0
    results := p.2 }

/-- The summary transcript message of `finishMockExam` (App lines 398-404). -/
def mockSummaryText (questions : List MockQuestion) (answers : List String) : String :=
  let out := finishMockExam questions answers
  let percentageStr :=
    if out.totalQuestions > 0 then
      jsToFixed1String ((out.score : Rat) / (out.totalQuestions : Rat) * 100)
    else "0"
  let base := "**Mock Exam Completed!**\n\n- **Score:** " ++ toString out.score ++
    " out of " ++ toString out.totalQuestions ++ " (" ++ percentageStr ++ "%)\n\n"
  if out.results.length > 0 then
    base ++ "**Review your incorrect answers:**\n\n" ++ String.intercalate "\n\n" out.results
  else
    base ++ "Excellent work! You answered all questions correctly!"

/-- `finishMockExam`'s effect on the application state (App lines 406-408). -/
def finishMockExamApp (s : AppState) (questions : List MockQuestion)
    (answers : List String) : AppState :=
  { addMsg s .system (mockSummaryText questions answers) with
      appStatus := .MOCK_EXAM_COMPLETED
      inputDisabled := true }

/-- `handleMockAnswer` (App lines 411-434). -/
def handleMockAnswer (s : AppState) (answer : String) : AppState :=
  match s.mockExam with
  | none => s
  | some me =>
    let upperCaseAnswer := jsToUpper (jsTrim answer)
    if ¬ (["A", "B", "C", "D"].contains upperCaseAnswer) then
      addMsg s .system "Invalid answer. Please enter A, B, C, or D."
    else
      let s1 := { addMsg s .user answer with inputDisabled := true }
      let updatedAnswers := me.answers ++ [upperCaseAnswer]
      let nextIndex := me.currentQuestionIndex + 1
      let newExamState : MockExamState :=
        { me with answers := updatedAnswers, currentQuestionIndex := nextIndex }
      let s2 := { s1 with mockExam := some newExamState }
      if h : nextIndex < me.questions.length then
        displayCurrentMockQuestion s2 (me.questions.get ⟨nextIndex, h⟩) nextIndex
          me.questions.length
      else
        finishMockExamApp s2 newExamState.questions newExamState.answers

/-! ## Evaluation flow (`App.tsx` lines 436-520)

`handleSendMessage` awaits `evaluateAnswer` and, on the twist path,
`generateScenario`; their outcomes are passed in as `Except` oracles
(`.error` = the awaited promise rejected, routing into the surrounding
`catch`).  The `?? 0` / `?? []` fallbacks in the source guard against
untyped payloads and are the identity on values of the declared
`EvaluationResult` interface, which is what the oracle supplies. -/

/-- The rubric/feedback message (App lines 460-464). -/
def feedbackText (evaluation : EvaluationResult) : String :=
  "**Score: " ++ toString evaluation.totalScore ++ "%**\n\n" ++
  "**Rubric Breakdown:**\n- Rules & Authority: " ++ toString evaluation.scores.rules ++
    "% \n- Calculations: " ++ toString evaluation.scores.calculations ++
    "% \n- Compliance: " ++ toString evaluation.scores.compliance ++
    "% \n- Alternatives: " ++ toString evaluation.scores.alternatives ++
    "% \n- Planning: " ++ toString evaluation.scores.planning ++
    "% \n- Clarity: " ++ toString evaluation.scores.clarity ++ "%\n\n" ++
  "**What you did well:**\n" ++
    String.intercalate "\n" (evaluation.feedback.good.map (fun item => "- " ++ item)) ++ "\n\n" ++
  "**Corrections:**\n" ++
    String.intercalate "\n" (evaluation.feedback.corrections.map (fun item => "- " ++ item)) ++ "\n\n" ++
  "**Key takeaways:**\n" ++
    String.intercalate "\n" (evaluation.feedback.takeaways.map (fun item => "- " ++ item))

/-- The twist announcement message (App line 485). -/
def twistMessageText (twistNumber : Nat) (newScenarioData : ScenarioData) : String :=
  "**Twist " ++ toString twistNumber ++ ":**\n" ++ newScenarioData.scenario ++
  "\n\n**Question:**\n" ++ newScenarioData.question

/-- The retry message re-appending the stored scenario (App line 509).
Its fixed text says "original", but the argument is whatever
`scenarioRef.current` holds at that moment. -/
def retryMessageText (sc : ScenarioData) : String :=
  "Let\x27s try that again. Here is the original scenario:\n\n**Scenario:**\n" ++
  sc.scenario ++ "\n\n**Question:**\n" ++ sc.question

/-- The `catch` block of `handleSendMessage` (App lines 513-519). -/
def evalErrorCatch (s : AppState) (errorMessage : String) : AppState :=
  { addMsg s .system ("Sorry, I encountered an error evaluating your answer: " ++
      errorMessage ++ ". Please try again.") with
    appStatus := .AWAITING_ANSWER
    inputDisabled := false }

/-- `handleSendMessage` (App lines 436-520).  Returns the new state and the
collaborator requests issued, in order.  When
`lessons[currentLessonIndex]` is out of bounds the property read on line
468 throws a TypeError that the `catch` block converts into the system
error path. -/
def handleSendMessage (s : AppState) (userMessage : String)
    (evalResponse : Except String EvaluationResult)
    (twistResponse : Except String ScenarioData) : AppState × List ExtRequest :=
  if s.appStatus = .MOCK_EXAM_IN_PROGRESS then
    (handleMockAnswer s userMessage, [])
  else
    match s.scenarioRef with
    | none => (s, [])
    | some currentScenario =>
      let s1 := { addMsg s .user userMessage with
                    appStatus := .EVALUATING, inputDisabled := true }
      let passedLessons := s.lessons.filter (fun l => l.status == LessonStatus.passed)
      let requests := [ExtRequest.evalReq currentScenario.scenario userMessage passedLessons]
      match evalResponse with
      | .error errorMessage => (evalErrorCatch s1 errorMessage, requests)
      | .ok evaluation =>
        let score := evaluation.totalScore
        let s2 := addMsg s1 .ai (feedbackText evaluation)
        if score ≥ 90 then
          match s.lessons.get? s.currentLessonIndex with
          | none =>
            (evalErrorCatch s2
              "Cannot read properties of undefined (reading \x27twistsCompleted\x27)",
             requests)
          | some currentLesson =>
            let currentTwists := currentLesson.twistsCompleted
            if currentTwists < 2 then
              let s3 := addMsg s2 .system ("Excellent work! You\x27ve scored " ++
                toString score ++
                "%. Let\x27s cement your knowledge with a twist on the scenario.")
              let s4 := { s3 with
                lessons := s3.lessons.set s.currentLessonIndex
                  { currentLesson with twistsCompleted := currentTwists + 1 }
                appStatus := .GENERATING }
              let requests2 := requests ++
                [ExtRequest.scenarioReq currentLesson.toLesson passedLessons
                  (some currentScenario.scenario) true]
              match twistResponse with
              | .ok newScenarioData =>
                let s5 := { s4 with scenarioRef := some newScenarioData }
                let s6 := addMsg s5 .ai (twistMessageText (currentTwists + 1) newScenarioData)
                ({ s6 with appStatus := .AWAITING_ANSWER, inputDisabled := false }, requests2)
              | .error errorMessage => (evalErrorCatch s4 errorMessage, requests2)
            else
              let s3 := addMsg s2 .system ("Congratulations! You\x27ve mastered this topic with a score of " ++
                toString score ++ "%.")
              ({ s3 with
                  lessons := s3.lessons.set s.currentLessonIndex
                    { currentLesson with status := .passed, score := score }
                  appStatus := .TOPIC_PASSED }, requests)
        else
          let s3 := addMsg s2 .system ("Your score is " ++ toString score ++
            "%. You need 90% to pass. Review the feedback and the model answer below. Let\x27s try this topic again.")
          let s4 :=
            if evaluation.knowledgePoints.length > 0 then
              addMsg s3 .ai ("**Key Knowledge Points to Review:**\n" ++
                String.intercalate "\n" (evaluation.knowledgePoints.map (fun item => "- " ++ item)))
            else s3
          let s5 :=
            match evaluation.detailedExplanation with
            | some d => if d ≠ "" then addMsg s4 .ai ("**Model Answer & Explanation:**\n" ++ d) else s4
            | none => s4
          let s6 := addMsg s5 .ai (retryMessageText currentScenario)
          ({ s6 with appStatus := .AWAITING_ANSWER, inputDisabled := false }, requests)

/-! ## Mock exam start (`App.tsx` lines 570-602) -/

/-- The `catch` block of `handleStartMockExam` (App lines 596-601). -/
def mockErrorCatch (s : AppState) (errorMessage : String) : AppState :=
  { addMsg s .system ("Sorry, I encountered an error generating the mock exam: " ++
      errorMessage ++ ". Please try again later.") with
    appStatus := .IDLE }

/-- `handleStartMockExam` (App lines 570-602).  The Generator outcome is
the `genResponse` oracle; the request it corresponds to (with the question
count computed inside `generateMockExamQuestions`) is returned when the
guard passes. -/
def handleStartMockExam (s : AppState)
    (genResponse : Except String (List MockQuestion)) : AppState × List ExtRequest :=
  let passedLessons := s.lessons.filter (fun l => l.status == LessonStatus.passed)
  if passedLessons.length < 5 then
    (addMsg s .system "You need to pass at least 5 topics to start a mock exam.", [])
  else
    let s1 := { s with appStatus := .GENERATING_MOCK_EXAM, messages := [] }
    let s2 := { addMsg s1 .system
        "Generating a mock exam based on your mastered topics. This may take a moment..." with
      inputDisabled := true }
    let requests := [ExtRequest.mockReq passedLessons (mockQuestionCount passedLessons.length)]
    match genResponse with
    | .ok questions =>
      match questions with
      | q0 :: _ =>
        let s3 := { s2 with
          mockExam := some { questions := questions, currentQuestionIndex := 0, answers := [] }
          appStatus := .MOCK_EXAM_IN_PROGRESS }
        (displayCurrentMockQuestion s3 q0 0 questions.length, requests)
      | [] => (mockErrorCatch s2 "The generated exam had no questions.", requests)
    | .error errorMessage => (mockErrorCatch s2 errorMessage, requests)

/-! ## Startup initialization (`App.tsx` lines 296-319)

The mount effect derives the initial lesson pointer from the loaded
collection and promotes the entry there from `locked` to `active`.  Only
the lessons/pointer part is modelled; the effect also resets the
transcript to a welcome message and the status to `IDLE`, which no claim
here concerns.  `.error ()` models the TypeError thrown when
`newLessons[initialIndex]` is `undefined` (possible only for an empty
collection). -/

def initLessons (lessons : List LessonProgress) :
    Except Unit (List LessonProgress × Int) :=
  let firstLockedIndex := jsFindIndex (fun l => !(l.status == LessonStatus.passed)) lessons
  let initialIndex : Int :=
    if firstLockedIndex = -1 then (lessons.length : Int) - 1 else firstLockedIndex
  if initialIndex < (lessons.length : Int) then
    match jsGet lessons initialIndex with
    | none => .error ()
    | some l =>
      if l.status = .locked then
        .ok (lessons.set initialIndex.toNat { l with status := .active }, initialIndex)
      else
        .ok (lessons, initialIndex)
  else
    .ok (lessons, initialIndex)

/-! ## Concrete fixtures for witnesses and counterexamples -/

/-- A single-lesson progress record with the given status and twist count. -/
def mkLesson (st : LessonStatus) (tw : Nat) : LessonProgress :=
  { week := 1, day := 1, phase := "Phase 1: Individuals", topic := "Filing Status",
    description := "Filing status rules", references := "Pub 17", part := "Part 1",
    sequence := "1", status := st, score := 0, twistsCompleted := tw }

def origScenario : ScenarioData :=
  { scenario := "Jane is a single taxpayer.", question := "What filing status applies?" }

def twistScenario : ScenarioData :=
  { scenario := "Jane married in December.", question := "What filing status applies now?" }

def passEval92 : EvaluationResult :=
  { totalScore := 92,
    scores := { rules := 30, calculations := 28, compliance := 14, alternatives := 9,
                planning := 8, clarity := 3 },
    feedback := { good := ["solid"], corrections := [], takeaways := ["done"] },
    knowledgePoints := [], detailedExplanation := some "" }

def failEval60 : EvaluationResult :=
  { totalScore := 60,
    scores := { rules := 15, calculations := 15, compliance := 10, alternatives := 8,
                planning := 8, clarity := 4 },
    feedback := { good := ["tried"], corrections := ["wrong status"], takeaways := ["review"] },
    knowledgePoints := ["Head of household rules"],
    detailedExplanation := some "The correct filing status is..." }

/-- A session awaiting an answer on a one-lesson curriculum. -/
def awaitingState (lp : LessonProgress) (sc : ScenarioData) : AppState :=
  { lessons := [lp], currentLessonIndex := 0, messages := [],
    appStatus := .AWAITING_ANSWER, inputDisabled := false, mockExam := none,
    scenarioRef := some sc }

def exActiveLesson : LessonProgress := mkLesson .active 0

def exAwaitState : AppState := awaitingState exActiveLesson origScenario

/-- After a 92-scored answer on `exAwaitState`: a twist was issued and stored. -/
def afterTwistState : AppState :=
  (handleSendMessage exAwaitState "first answer" (.ok passEval92) (.ok twistScenario)).1

/-- After a subsequent 60-scored answer on `afterTwistState`. -/
def afterFailState : AppState :=
  (handleSendMessage afterTwistState "second answer" (.ok failEval60) (.ok twistScenario)).1

def mockQ : MockQuestion :=
  { question := "Which filing status applies?",
    options := { A := "Single", B := "MFJ", C := "MFS", D := "HOH" },
    correctAnswer := "A", topic := "Filing Status" }

def exMockSession : MockExamState :=
  { questions := [mockQ], currentQuestionIndex := 0, answers := [] }

def mockState : AppState :=
  { lessons := [mkLesson .passed 2], currentLessonIndex := 0, messages := [],
    appStatus := .MOCK_EXAM_IN_PROGRESS, inputDisabled := false,
    mockExam := some exMockSession, scenarioRef := none }

def manyPassedState : AppState :=
  { lessons := List.replicate 10 (mkLesson .passed 2), currentLessonIndex := 0,
    messages := [], appStatus := .IDLE, inputDisabled := true, mockExam := none,
    scenarioRef := none }

/-! ## Theorems -/

/-- C1: an evaluation scoring at least 90 while the current lesson has
fewer than two twists completed increments `twistsCompleted`, leaves the
status `active` (never `passed`), requests a twist scenario from the
Generator with the previous scenario text and the twist flag true,
replaces the stored scenario with the Generator's result, and ends in
`AWAITING_ANSWER`. -/
theorem handleSendMessage_pass_with_twists_remaining
    (s : AppState) (userMessage : String)
    (evaluation : EvaluationResult) (newScenarioData : ScenarioData)
    (currentScenario : ScenarioData) (currentLesson : LessonProgress)
    (hmock : s.appStatus ≠ AppStatus.MOCK_EXAM_IN_PROGRESS)
    (hsc : s.scenarioRef = some currentScenario)
    (hlesson : s.lessons.get? s.currentLessonIndex = some currentLesson)
    (hscore : evaluation.totalScore ≥ 90)
    (htw : currentLesson.twistsCompleted < 2)
    (hact : currentLesson.status = LessonStatus.active) :
    ((handleSendMessage s userMessage (.ok evaluation) (.ok newScenarioData)).1.lessons.get?
        s.currentLessonIndex).map LessonProgress.twistsCompleted
      = some (currentLesson.twistsCompleted + 1) ∧
    ((handleSendMessage s userMessage (.ok evaluation) (.ok newScenarioData)).1.lessons.get?
        s.currentLessonIndex).map LessonProgress.status = some LessonStatus.active ∧
    (handleSendMessage s userMessage (.ok evaluation) (.ok newScenarioData)).1.scenarioRef
      = some newScenarioData ∧
    (handleSendMessage s userMessage (.ok evaluation) (.ok newScenarioData)).1.appStatus
      = AppStatus.AWAITING_ANSWER ∧
    ExtRequest.scenarioReq currentLesson.toLesson
        (s.lessons.filter (fun l => l.status == LessonStatus.passed))
        (some currentScenario.scenario) true
      ∈ (handleSendMessage s userMessage (.ok evaluation) (.ok newScenarioData)).2 := by
  have hlen : s.currentLessonIndex < s.lessons.length := by
    rcases List.get?_eq_some.mp hlesson with ⟨h, _⟩
    exact h
  simp only [handleSendMessage, if_neg hmock, hsc, hlesson, addMsg, ge_iff_le, if_pos hscore,
    if_pos htw]
  refine ⟨?_, ?_, trivial, trivial, ?_⟩
  · rw [List.get?_set_eq_of_lt _ hlen]
    rfl
  · rw [List.get?_set_eq_of_lt _ hlen]
    simpa using hact
  · simp

/-- Witness for C1: a 92-scored answer on a lesson with zero twists
completed, at a concrete state. -/
theorem handleSendMessage_pass_with_twists_remaining_witness :
    ((handleSendMessage exAwaitState "first answer" (.ok passEval92) (.ok twistScenario)).1.lessons.get?
        exAwaitState.currentLessonIndex).map LessonProgress.twistsCompleted
      = some (exActiveLesson.twistsCompleted + 1) ∧
    ((handleSendMessage exAwaitState "first answer" (.ok passEval92) (.ok twistScenario)).1.lessons.get?
        exAwaitState.currentLessonIndex).map LessonProgress.status = some LessonStatus.active ∧
    (handleSendMessage exAwaitState "first answer" (.ok passEval92) (.ok twistScenario)).1.scenarioRef
      = some twistScenario ∧
    (handleSendMessage exAwaitState "first answer" (.ok passEval92) (.ok twistScenario)).1.appStatus
      = AppStatus.AWAITING_ANSWER ∧
    ExtRequest.scenarioReq exActiveLesson.toLesson
        (exAwaitState.lessons.filter (fun l => l.status == LessonStatus.passed))
        (some origScenario.scenario) true
      ∈ (handleSendMessage exAwaitState "first answer" (.ok passEval92) (.ok twistScenario)).2 :=
  handleSendMessage_pass_with_twists_remaining exAwaitState "first answer" passEval92
    twistScenario origScenario exActiveLesson (by decide) rfl rfl (by decide) (by decide) rfl

/-- C2: an evaluation scoring at least 90 while the current lesson already
has two twists completed marks the lesson `passed` with the given score,
leaves `twistsCompleted` at 2, and moves to `TOPIC_PASSED`. -/
theorem handleSendMessage_pass_after_two_twists
    (s : AppState) (userMessage : String)
    (evaluation : EvaluationResult) (twistResponse : Except String ScenarioData)
    (currentScenario : ScenarioData) (currentLesson : LessonProgress)
    (hmock : s.appStatus ≠ AppStatus.MOCK_EXAM_IN_PROGRESS)
    (hsc : s.scenarioRef = some currentScenario)
    (hlesson : s.lessons.get? s.currentLessonIndex = some currentLesson)
    (hscore : evaluation.totalScore ≥ 90)
    (htw2 : currentLesson.twistsCompleted = 2) :
    ((handleSendMessage s userMessage (.ok evaluation) twistResponse).1.lessons.get?
        s.currentLessonIndex).map LessonProgress.status = some LessonStatus.passed ∧
    ((handleSendMessage s userMessage (.ok evaluation) twistResponse).1.lessons.get?
        s.currentLessonIndex).map LessonProgress.score = some evaluation.totalScore ∧
    ((handleSendMessage s userMessage (.ok evaluation) twistResponse).1.lessons.get?
        s.currentLessonIndex).map LessonProgress.twistsCompleted = some 2 ∧
    (handleSendMessage s userMessage (.ok evaluation) twistResponse).1.appStatus
      = AppStatus.TOPIC_PASSED := by
  have hlen : s.currentLessonIndex < s.lessons.length := by
    rcases List.get?_eq_some.mp hlesson with ⟨h, _⟩
    exact h
  have hnot : ¬ currentLesson.twistsCompleted < 2 := by omega
  simp only [handleSendMessage, if_neg hmock, hsc, hlesson, addMsg, ge_iff_le, if_pos hscore,
    if_neg hnot]
  refine ⟨?_, ?_, ?_, trivial⟩ <;>
    rw [List.get?_set_eq_of_lt _ hlen] <;> simp [htw2]

/-- Witness for C2: a 92-scored answer on a lesson with two twists
completed, at a concrete state. -/
theorem handleSendMessage_pass_after_two_twists_witness :
    (((handleSendMessage (awaitingState (mkLesson .active 2) origScenario) "answer"
        (.ok passEval92) (.ok twistScenario)).1.lessons.get?
        (awaitingState (mkLesson .active 2) origScenario).currentLessonIndex).map
        LessonProgress.status = some LessonStatus.passed) ∧
    (((handleSendMessage (awaitingState (mkLesson .active 2) origScenario) "answer"
        (.ok passEval92) (.ok twistScenario)).1.lessons.get?
        (awaitingState (mkLesson .active 2) origScenario).currentLessonIndex).map
        LessonProgress.score = some passEval92.totalScore) ∧
    (((handleSendMessage (awaitingState (mkLesson .active 2) origScenario) "answer"
        (.ok passEval92) (.ok twistScenario)).1.lessons.get?
        (awaitingState (mkLesson .active 2) origScenario).currentLessonIndex).map
        LessonProgress.twistsCompleted = some 2) ∧
    (handleSendMessage (awaitingState (mkLesson .active 2) origScenario) "answer"
        (.ok passEval92) (.ok twistScenario)).1.appStatus = AppStatus.TOPIC_PASSED :=
  handleSendMessage_pass_after_two_twists (awaitingState (mkLesson .active 2) origScenario)
    "answer" passEval92 (.ok twistScenario) origScenario (mkLesson .active 2)
    (by decide) rfl rfl (by decide) rfl

/-- C3 counterexample: after a twist has been issued (the stored scenario
is the twist, `twistsCompleted` = 1), a failing evaluation re-appends the
*twist* scenario text, not the original pre-twist text, even though the
message labels it "original". -/
theorem lowScore_after_twist_redisplays_twist_cex :
    (afterTwistState.lessons.get? 0).map LessonProgress.twistsCompleted = some 1 ∧
    afterTwistState.scenarioRef = some twistScenario ∧
    afterFailState.messages.getLast?
      = some { sender := .ai, text := retryMessageText twistScenario, refList := [] } ∧
    retryMessageText twistScenario ≠ retryMessageText origScenario := by
  refine ⟨rfl, rfl, rfl, ?_⟩
  decide

/-- C3 (amended): a failing evaluation re-appends the *currently stored*
scenario text (which is the latest twist whenever a twist has been
issued), and returns to `AWAITING_ANSWER`. -/
theorem handleSendMessage_lowScore_redisplaysStoredScenario
    (s : AppState) (userMessage : String)
    (evaluation : EvaluationResult) (twistResponse : Except String ScenarioData)
    (currentScenario : ScenarioData)
    (hmock : s.appStatus ≠ AppStatus.MOCK_EXAM_IN_PROGRESS)
    (hsc : s.scenarioRef = some currentScenario)
    (hscore : evaluation.totalScore < 90) :
    (handleSendMessage s userMessage (.ok evaluation) twistResponse).1.messages.getLast?
      = some { sender := .ai, text := retryMessageText currentScenario, refList := [] } ∧
    (handleSendMessage s userMessage (.ok evaluation) twistResponse).1.appStatus
      = AppStatus.AWAITING_ANSWER := by
  have hnot : ¬ evaluation.totalScore ≥ 90 := by omega
  simp only [handleSendMessage, if_neg hmock, hsc, addMsg, ge_iff_le, if_neg hnot]
  constructor
  · repeat' split
    all_goals simp [List.getLast?_concat]
  · trivial

/-- Witness for the amended C3: a 60-scored answer at a concrete state
whose stored scenario is the original. -/
theorem handleSendMessage_lowScore_redisplaysStoredScenario_witness :
    (handleSendMessage exAwaitState "second answer" (.ok failEval60) (.ok twistScenario)).1.messages.getLast?
      = some { sender := .ai, text := retryMessageText origScenario, refList := [] } ∧
    (handleSendMessage exAwaitState "second answer" (.ok failEval60) (.ok twistScenario)).1.appStatus
      = AppStatus.AWAITING_ANSWER :=
  handleSendMessage_lowScore_redisplaysStoredScenario exAwaitState "second answer" failEval60
    (.ok twistScenario) origScenario (by decide) rfl (by decide)

/-- C4: an evaluation scoring below 90 leaves the whole `LessonProgress`
collection unchanged — in particular the current lesson's status and
twist count. -/
theorem handleSendMessage_lowScore_lessons_unchanged
    (s : AppState) (userMessage : String)
    (evaluation : EvaluationResult) (twistResponse : Except String ScenarioData)
    (currentScenario : ScenarioData)
    (hmock : s.appStatus ≠ AppStatus.MOCK_EXAM_IN_PROGRESS)
    (hsc : s.scenarioRef = some currentScenario)
    (hscore : evaluation.totalScore < 90) :
    (handleSendMessage s userMessage (.ok evaluation) twistResponse).1.lessons = s.lessons := by
  have hnot : ¬ evaluation.totalScore ≥ 90 := by omega
  simp only [handleSendMessage, if_neg hmock, hsc, addMsg, ge_iff_le, if_neg hnot]
  repeat' split
  all_goals rfl

/-- Witness for C4 at a concrete state. -/
theorem handleSendMessage_lowScore_lessons_unchanged_witness :
    (handleSendMessage exAwaitState "an answer" (.ok failEval60) (.ok twistScenario)).1.lessons
      = exAwaitState.lessons :=
  handleSendMessage_lowScore_lessons_unchanged exAwaitState "an answer" failEval60
    (.ok twistScenario) origScenario (by decide) rfl (by decide)

/-- C5 counterexample: the empty JSON object parses, is not valid per the
`EvaluationResult` schema, and is nevertheless returned by
`evaluateAnswer` as a success — the source performs no shape validation. -/
theorem evaluateAnswer_accepts_invalid_shape_cex :
    evaluateAnswer (.parsed (Json.obj [])) = .ok (Json.obj []) ∧
    validEvaluationJson (Json.obj []) = false :=
  ⟨rfl, rfl⟩

/-- C5 (amended): `evaluateAnswer` fails when the collaborator's response
is empty, and a `JSON.parse` failure propagates as an error; but every
response that parses is returned as a success unconditionally — no schema
validation is performed. -/
theorem evaluateAnswer_validation_behavior :
    (∃ e, evaluateAnswer .empty = .error e) ∧
    (∃ e, evaluateAnswer .unparseable = .error e) ∧
    ∀ j, evaluateAnswer (.parsed j) = .ok j :=
  ⟨⟨_, rfl⟩, ⟨_, rfl⟩, fun _ => rfl⟩

/-- The `forEach` fold of `finishMockExam` equals its specification: the
score counts the indices whose submitted letter matches the question's
correct answer, and the result lines are exactly the incorrect positions
in original order. -/
theorem finishLoop_spec (answers : List String) (i : Nat) (qs : List MockQuestion) :
    finishLoop answers i qs =
      ((List.enumFrom i qs).countP (fun p => answers.get? p.1 == some p.2.correctAnswer),
       ((List.enumFrom i qs).filter
          (fun p => !(answers.get? p.1 == some p.2.correctAnswer))).map
         (fun p => resultLine p.1 p.2 (answers.get? p.1))) := by
  induction qs generalizing i with
  | nil => simp [finishLoop]
  | cons q qs ih =>
    simp only [finishLoop, ih, List.enumFrom_cons, List.countP_cons, List.filter_cons]
    by_cases h : answers[i]? = some q.correctAnswer <;> simp [h]

/-- C6: the reported mock-exam score counts the positions where the
submitted answer equals the question's correct answer; the percentage is
score/total×100 rounded to one decimal (0 when there are no questions);
and the incorrect positions are recorded in original question order, each
with the learner's answer (or the "No Answer" sentinel) and the correct
option's letter and text (the text of `resultLine`). -/
theorem finishMockExam_spec (questions : List MockQuestion) (answers : List String) :
    (finishMockExam questions answers).score
      = (List.enumFrom 0 questions).countP
          (fun p => answers.get? p.1 == some p.2.correctAnswer) ∧
    (finishMockExam questions answers).percentage
      = (if questions.length > 0 then
           jsToFixed1 (((finishMockExam questions answers).score : Rat) /
             (questions.length : Rat) * 100)
         else 0) ∧
    (finishMockExam questions answers).results
      = ((List.enumFrom 0 questions).filter
          (fun p => !(answers.get? p.1 == some p.2.correctAnswer))).map
          (fun p => resultLine p.1 p.2 (answers.get? p.1)) := by
  refine ⟨?_, rfl, ?_⟩ <;> simp [finishMockExam, finishLoop_spec]

/-- C7: a mock answer that does not normalize (trim + uppercase) to one of
A, B, C, D is rejected with an inline system message: the mock session
(cursor and answer sequence) is unchanged and the state remains
`MOCK_EXAM_IN_PROGRESS`. -/
theorem handleMockAnswer_rejects_invalid_letter
    (s : AppState) (answer : String) (me : MockExamState)
    (hmock : s.mockExam = some me)
    (hstatus : s.appStatus = AppStatus.MOCK_EXAM_IN_PROGRESS)
    (hbad : (["A", "B", "C", "D"].contains (jsToUpper (jsTrim answer))) = false) :
    handleMockAnswer s answer
      = addMsg s .system "Invalid answer. Please enter A, B, C, or D." ∧
    (handleMockAnswer s answer).mockExam = some me ∧
    (handleMockAnswer s answer).appStatus = AppStatus.MOCK_EXAM_IN_PROGRESS := by
  have h1 : handleMockAnswer s answer
      = addMsg s .system "Invalid answer. Please enter A, B, C, or D." := by
    simp only [handleMockAnswer, hmock]
    rw [if_pos]
    simpa using hbad
  refine ⟨h1, ?_, ?_⟩ <;> rw [h1] <;> simp [addMsg, hmock, hstatus]

/-- Witness for C7: submitting "E" during a concrete mock exam. -/
theorem handleMockAnswer_rejects_invalid_letter_witness :
    handleMockAnswer mockState "E"
      = addMsg mockState .system "Invalid answer. Please enter A, B, C, or D." ∧
    (handleMockAnswer mockState "E").mockExam = some exMockSession ∧
    (handleMockAnswer mockState "E").appStatus = AppStatus.MOCK_EXAM_IN_PROGRESS :=
  handleMockAnswer_rejects_invalid_letter mockState "E" exMockSession rfl rfl (by decide)

/-- C8: starting a mock exam with fewer than five passed lessons issues no
Generator request and changes nothing but the appended rejection message;
with at least five, the single request carries the question count
clamp(floor(passedCount/2), 5, 15). -/
theorem handleStartMockExam_guard_and_count
    (s : AppState) (genResponse : Except String (List MockQuestion)) :
    ((s.lessons.filter (fun l => l.status == LessonStatus.passed)).length < 5 →
      handleStartMockExam s genResponse
        = (addMsg s .system "You need to pass at least 5 topics to start a mock exam.", [])) ∧
    (5 ≤ (s.lessons.filter (fun l => l.status == LessonStatus.passed)).length →
      (handleStartMockExam s genResponse).2
        = [ExtRequest.mockReq (s.lessons.filter (fun l => l.status == LessonStatus.passed))
            (mockQuestionCount
              (s.lessons.filter (fun l => l.status == LessonStatus.passed)).length)]) ∧
    ∀ n : Nat, mockQuestionCount n = min 15 (max 5 (n / 2)) := by
  refine ⟨?_, ?_, ?_⟩
  · intro h
    simp only [handleStartMockExam, if_pos h]
  · intro h
    have hn : ¬ (s.lessons.filter (fun l => l.status == LessonStatus.passed)).length < 5 := by
      omega
    rcases genResponse with e | qs
    · simp only [handleStartMockExam, if_neg hn]
    · cases qs <;> simp only [handleStartMockExam, if_neg hn]
  · intro n
    unfold mockQuestionCount
    omega

/-- Witness for C8: a state with zero passed lessons is rejected with no
request, and a state with ten passed lessons issues one request. -/
theorem handleStartMockExam_guard_and_count_witness :
    (handleStartMockExam exAwaitState (.ok [])
      = (addMsg exAwaitState .system "You need to pass at least 5 topics to start a mock exam.", [])) ∧
    ((handleStartMockExam manyPassedState (.ok [])).2
      = [ExtRequest.mockReq
          (manyPassedState.lessons.filter (fun l => l.status == LessonStatus.passed))
          (mockQuestionCount
            (manyPassedState.lessons.filter (fun l => l.status == LessonStatus.passed)).length)]) :=
  ⟨(handleStartMockExam_guard_and_count exAwaitState (.ok [])).1 (by decide),
   (handleStartMockExam_guard_and_count manyPassedState (.ok [])).2.1 (by decide)⟩

/-- Every index returned by the JavaScript `findIndex` model is either -1
with no element satisfying the predicate, or the first satisfying index. -/
theorem jsFindIndex_spec {α : Type} (p : α → Bool) (ls : List α) :
    (jsFindIndex p ls = -1 ∧ ∀ a ∈ ls, p a = false) ∨
    (∃ n : Nat, jsFindIndex p ls = n ∧
      (∃ a, ls.get? n = some a ∧ p a = true) ∧
      ∀ j, j < n → ∀ b, ls.get? j = some b → p b = false) := by
  induction ls with
  | nil =>
    left
    exact ⟨rfl, by simp⟩
  | cons a as ih =>
    by_cases hpa : p a
    · right
      refine ⟨0, by simp [jsFindIndex, hpa], ⟨a, by simp, hpa⟩, ?_⟩
      intro j hj
      omega
    · rcases ih with ⟨h1, h2⟩ | ⟨n, hn, ⟨b, hb, hpb⟩, hmin⟩
      · left
        constructor
        · simp [jsFindIndex, hpa, h1]
        · intro x hx
          rcases List.mem_cons.mp hx with hx | hx
          · subst hx
            simpa using hpa
          · exact h2 x hx
      · right
        refine ⟨n + 1, ?_, ⟨b, by simpa using hb, hpb⟩, ?_⟩
        · have hne : ¬ ((n : Int) = -1) := by omega
          simp [jsFindIndex, hpa, hn, hne]
        · intro j hj c hc
          cases j with
          | zero =>
            simp at hc
            subst hc
            simpa using hpa
          | succ j =>
            refine hmin j (by omega) c ?_
            simpa using hc

/-- C9 counterexample: a persisted collection `[locked, active]` —
reachable by selecting lesson 2 and reloading — yields *two* `active`
entries after initialization, because the effect promotes the first
non-passed entry without demoting a later `active` one. -/
theorem initLessons_two_active_cex :
    (initLessons [mkLesson .locked 0, mkLesson .active 0]).map
        (fun r => r.1.countP (fun l => l.status == LessonStatus.active)) = .ok 2 ∧
    ([mkLesson .locked 0, mkLesson .active 0].all
        (fun l => l.status == LessonStatus.passed)) = false :=
  ⟨rfl, rfl⟩

/-- C9 (amended): for every nonempty startup collection in which no entry
is already `active`, initialization succeeds and afterwards exactly one
entry is `active` (zero if all are `passed`), and any `active` entry sits
at the lowest-ordered position whose entry was not `passed`. -/
theorem initLessons_unique_active (ls : List LessonProgress)
    (hne : ls ≠ [])
    (hno : ∀ l ∈ ls, l.status ≠ LessonStatus.active) :
    ∃ ls' idx, initLessons ls = .ok (ls', idx) ∧
      (ls'.countP (fun l => l.status == LessonStatus.active)
        = if ls.all (fun l => l.status == LessonStatus.passed) then 0 else 1) ∧
      ∀ i li, ls'.get? i = some li → li.status = LessonStatus.active →
        ((∃ l0, ls.get? i = some l0 ∧ l0.status ≠ LessonStatus.passed) ∧
         ∀ j, j < i → ∀ l1, ls.get? j = some l1 → l1.status = LessonStatus.passed) := by
  have hlen : 0 < ls.length := List.length_pos.mpr hne
  rcases jsFindIndex_spec (fun l => !(l.status == LessonStatus.passed)) ls with
    ⟨hfi, hall⟩ | ⟨n, hfi, ⟨a, ha, hpa⟩, hmin⟩
  · -- every entry is passed: the effect promotes nothing
    have hpassed : ∀ l ∈ ls, l.status = LessonStatus.passed := by
      intro l hl
      have := hall l hl
      simpa using this
    have hlt : ls.length - 1 < ls.length := by omega
    have hlast : ls.get? (ls.length - 1) = some (ls.get ⟨ls.length - 1, hlt⟩) :=
      List.get?_eq_get hlt
    have hlastp : (ls.get ⟨ls.length - 1, hlt⟩).status = LessonStatus.passed :=
      hpassed _ (List.get?_mem hlast)
    simp only [List.get_eq_getElem] at hlastp
    have hget : jsGet ls ((ls.length : Int) - 1) = ls.get? (ls.length - 1) := by
      unfold jsGet
      rw [if_neg (by omega)]
      congr 1
      omega
    refine ⟨ls, (ls.length : Int) - 1, ?_, ?_, ?_⟩
    · unfold initLessons
      simp only [hfi, reduceIte]
      rw [if_pos (by omega : ((ls.length : Int) - 1) < (ls.length : Int)), hget, hlast]
      simp [hlastp]
    · rw [if_pos (by simpa [List.all_eq_true] using hpassed)]
      rw [List.countP_eq_zero]
      intro l hl
      simp [hpassed l hl]
    · intro i li hi hact
      exact absurd (hpassed li (List.get?_mem hi)) (by simp [hact])
  · -- the first non-passed entry sits at index n and must be locked
    have hnlt : n < ls.length := (List.get?_eq_some.mp ha).1
    have hanp : a.status ≠ LessonStatus.passed := by
      simpa using hpa
    have hana : a.status ≠ LessonStatus.active := hno a (List.get?_mem ha)
    have hal : a.status = LessonStatus.locked := by
      cases h : a.status <;> simp_all
    have hfne : ¬ ((n : Int) = -1) := by omega
    have hget : jsGet ls (n : Int) = ls.get? n := by
      unfold jsGet
      rw [if_neg (by omega)]
      simp
    refine ⟨ls.set n { a with status := LessonStatus.active }, (n : Int), ?_, ?_, ?_⟩
    · unfold initLessons
      simp only [hfi, hfne, reduceIte, if_neg hfne]
      rw [if_pos (by exact_mod_cast hnlt : ((n : Nat) : Int) < (ls.length : Int)), hget, ha]
      simp [hal]
    · have hnotall : ls.all (fun l => l.status == LessonStatus.passed) = false := by
        apply Bool.eq_false_iff.mpr
        intro hcon
        have := List.all_eq_true.mp hcon a (List.get?_mem ha)
        simp_all
      rw [hnotall]
      simp only [Bool.false_eq_true, if_false]
      rw [List.set_eq_take_cons_drop _ hnlt, List.countP_append, List.countP_cons]
      have htake : (ls.take n).countP (fun l => l.status == LessonStatus.active) = 0 := by
        rw [List.countP_eq_zero]
        intro l hl
        simp [hno l (List.take_subset n ls hl)]
      have hdrop : (ls.drop (n + 1)).countP (fun l => l.status == LessonStatus.active) = 0 := by
        rw [List.countP_eq_zero]
        intro l hl
        simp [hno l (List.drop_subset (n + 1) ls hl)]
      simp [htake, hdrop]
    · intro i li hi hact
      by_cases hieq : i = n
      · subst hieq
        rw [List.get?_set_eq_of_lt _ hnlt] at hi
        refine ⟨⟨a, ha, hanp⟩, ?_⟩
        intro j hj l1 hl1
        have := hmin j hj l1 hl1
        simpa using this
      · rw [List.get?_set_ne _ _ (fun h => hieq h.symm)] at hi
        exact absurd hact (hno li (List.get?_mem hi))

/-- Witness for the amended C9: a fresh one-lesson collection, all locked. -/
theorem initLessons_unique_active_witness :
    ∃ ls' idx, initLessons [mkLesson .locked 0] = .ok (ls', idx) ∧
      (ls'.countP (fun l => l.status == LessonStatus.active)
        = if [mkLesson .locked 0].all (fun l => l.status == LessonStatus.passed) then 0 else 1) ∧
      ∀ i li, ls'.get? i = some li → li.status = LessonStatus.active →
        ((∃ l0, [mkLesson .locked 0].get? i = some l0 ∧ l0.status ≠ LessonStatus.passed) ∧
         ∀ j, j < i → ∀ l1, [mkLesson .locked 0].get? j = some l1 →
            l1.status = LessonStatus.passed) :=
  initLessons_unique_active [mkLesson .locked 0] (List.cons_ne_nil _ _) (by decide)

/-- C10: when the twist-generation call fails after a passing score with
twists remaining, the handler appends the system error message and returns
to `AWAITING_ANSWER` with the previous scenario still stored — but the
increment of `twistsCompleted` applied before the call is kept, not rolled
back. -/
theorem handleSendMessage_twist_failure_keeps_increment
    (s : AppState) (userMessage errorMessage : String)
    (evaluation : EvaluationResult)
    (currentScenario : ScenarioData) (currentLesson : LessonProgress)
    (hmock : s.appStatus ≠ AppStatus.MOCK_EXAM_IN_PROGRESS)
    (hsc : s.scenarioRef = some currentScenario)
    (hlesson : s.lessons.get? s.currentLessonIndex = some currentLesson)
    (hscore : evaluation.totalScore ≥ 90)
    (htw : currentLesson.twistsCompleted < 2) :
    ((handleSendMessage s userMessage (.ok evaluation) (.error errorMessage)).1.lessons.get?
        s.currentLessonIndex).map LessonProgress.twistsCompleted
      = some (currentLesson.twistsCompleted + 1) ∧
    (handleSendMessage s userMessage (.ok evaluation) (.error errorMessage)).1.scenarioRef
      = some currentScenario ∧
    (handleSendMessage s userMessage (.ok evaluation) (.error errorMessage)).1.appStatus
      = AppStatus.AWAITING_ANSWER ∧
    (handleSendMessage s userMessage (.ok evaluation) (.error errorMessage)).1.messages.getLast?
      = some { sender := .system,
               text := "Sorry, I encountered an error evaluating your answer: " ++
                 errorMessage ++ ". Please try again.",
               refList := [] } := by
  have hlen : s.currentLessonIndex < s.lessons.length := by
    rcases List.get?_eq_some.mp hlesson with ⟨h, _⟩
    exact h
  simp only [handleSendMessage, if_neg hmock, hsc, hlesson, addMsg, ge_iff_le, if_pos hscore,
    if_pos htw, evalErrorCatch]
  refine ⟨?_, trivial, trivial, ?_⟩
  · rw [List.get?_set_eq_of_lt _ hlen]
    rfl
  · simp [List.getLast?_concat]

/-- Witness for C10: the Generator call fails after a 92-scored answer at
a concrete state with zero twists completed. -/
theorem handleSendMessage_twist_failure_keeps_increment_witness :
    ((handleSendMessage exAwaitState "first answer" (.ok passEval92) (.error "network down")).1.lessons.get?
        exAwaitState.currentLessonIndex).map LessonProgress.twistsCompleted
      = some (exActiveLesson.twistsCompleted + 1) ∧
    (handleSendMessage exAwaitState "first answer" (.ok passEval92) (.error "network down")).1.scenarioRef
      = some origScenario ∧
    (handleSendMessage exAwaitState "first answer" (.ok passEval92) (.error "network down")).1.appStatus
      = AppStatus.AWAITING_ANSWER ∧
    (handleSendMessage exAwaitState "first answer" (.ok passEval92) (.error "network down")).1.messages.getLast?
      = some { sender := .system,
               text := "Sorry, I encountered an error evaluating your answer: " ++
                 "network down" ++ ". Please try again.",
               refList := [] } :=
  handleSendMessage_twist_failure_keeps_increment exAwaitState "first answer" "network down"
    passEval92 origScenario exActiveLesson (by decide) rfl rfl (by decide) (by decide)

end IRSSEE
